import Mathlib

/-!
Verification of the Synaptic real-time room synchronization core.

The server side embeds `SynapticServer` (the PartyKit hub): its `RoomState`,
`onConnect`, `onMessage` and `onClose` handlers.  Inbound messages are JSON
texts; `JSON.parse` either throws (modelled as the `none` case of
`Option JSValue`) or yields a JSON value (`JSValue`).  JavaScript dynamic
behaviour that the handler relies on is embedded explicitly: property access
on `null` throws, destructuring `undefined`/`null` throws, `x || d` tests
truthiness, and `Record` insertion preserves key order.  An uncaught
exception in a handler is the `Except.error ()` outcome.

The client side embeds the `sendPosition` throttle of `useMultiplayer`
(hooks/useStore.ts) and the movement-send gate of the `Controls` component.
-/

/-- A JSON value as produced by `JSON.parse`.  JSON numbers are embedded as
rationals (the server never computes with them; it only stores and forwards
them).  `undefined` is not a JSON value; where JavaScript can produce
`undefined` (a missing property) we use `Option JSValue` with `none`. -/
inductive JSValue where
  | null
  | bool (b : Bool)
  | num (q : ℚ)
  | str (s : String)
  | arr (xs : List JSValue)
  | obj (fields : List (String × JSValue))

namespace JSValue

/-- Property read `v.f` on a non-nullish value: field lookup on objects,
`undefined` on primitives and arrays (none of the property names the server
reads exists on those). -/
def getField : JSValue → String → Option JSValue
  | .obj fields, f => fields.lookup f
  | _, _ => none

/-- JavaScript truthiness of a defined value. -/
def truthyV : JSValue → Bool
  | .null => false
  | .bool b => b
  | .num q => q ≠ 0
  | .str s => s ≠ ""
  | .arr _ => true
  | .obj _ => true

end JSValue

/-- Truthiness of a possibly-`undefined` value (`undefined` is falsy). -/
def truthy : Option JSValue → Bool
  | none => false
  | some v => v.truthyV

/-- JavaScript `x || d` for a possibly-`undefined` `x` and a default `d`. -/
def jsOr (x : Option JSValue) (d : JSValue) : JSValue :=
  match x with
  | some v => if v.truthyV then v else d
  | none => d

/-- Destructuring `const { ... } = payload`: throws a TypeError when the
value is `undefined` or `null`, otherwise yields the value (field reads on
it then never throw). -/
def destruct : Option JSValue → Except Unit JSValue
  | none => .error ()
  | some .null => .error ()
  | some v => .ok v

/-- The `.length` property: string length, array length, or an explicit
`length` field of an object; `undefined` otherwise. -/
def lengthProp : JSValue → Option JSValue
  | .str s => some (.num s.length)
  | .arr xs => some (.num xs.length)
  | .obj fields => fields.lookup "length"
  | _ => none

/-- JavaScript `ToNumber` on a defined value, `none` for NaN.  Strings are
parsed as (optionally signed) integers; fractional numeric strings and
object/array coercion are approximated as NaN — the only `.length` values
the handler ever compares are genuine string/array lengths, which are
numbers already. -/
def toNumber? : JSValue → Option ℚ
  | .null => some 0
  | .bool b => some (if b then 1 else 0)
  | .num q => some q
  | .str s => if s.trim = "" then some 0 else (s.trim.toInt?.map fun n => (n : ℚ))
  | .arr _ => none
  | .obj _ => none

/-- The guard `text.length > 500` (false when `.length` is `undefined` or
coerces to NaN, as in JavaScript). -/
def jsLengthExceeds (v : JSValue) (k : ℚ) : Bool :=
  match lengthProp v with
  | none => false
  | some w =>
    match toNumber? w with
    | none => false
    | some n => k < n

/-- A player's state as stored by the hub (server.ts lines 56-64): `id`,
`name`, `avatar`, `avatarColor`, `position`, `rotation`, `isActive`.
`name`/`avatar`/`avatarColor` are whatever truthy payload value or default
string the JOIN handler computed; `position`/`rotation` are the raw payload
values (possibly `undefined` after a MOVE with a partial payload). -/
structure PlayerState where
  id : String
  name : JSValue
  avatar : JSValue
  avatarColor : JSValue
  position : Option JSValue
  rotation : Option JSValue
  isActive : Bool

/-- A stored chat message (id is `sender.id + "-" + Date.now()`). -/
structure ChatMessage where
  id : String
  senderId : String
  senderName : JSValue
  text : JSValue
  timestamp : ℤ

/-- The hub's room state.  `players` embeds the JavaScript
`Record<string, PlayerState>` as a key-unique association list in property
insertion order.  `currentMood` is `Option JSValue` because UPDATE_MOOD
stores the raw payload field, which can be `undefined`. -/
structure RoomState where
  players : List (String × PlayerState)
  currentMood : Option JSValue
  chatHistory : List ChatMessage

/-- The initial room state. -/
def initialState : RoomState :=
  { players := [], currentMood := some (.str "neutral"), chatHistory := [] }

/-- `Record` assignment `players[k] = v`: overwrites in place when the key
exists, otherwise appends (JavaScript string-keyed property order). -/
def setPlayer (ps : List (String × PlayerState)) (k : String) (v : PlayerState) :
    List (String × PlayerState) :=
  if (ps.lookup k).isSome then
    ps.map fun kv => if kv.1 = k then (k, v) else kv
  else
    ps ++ [(k, v)]

/-- `delete players[k]`. -/
def delPlayer (ps : List (String × PlayerState)) (k : String) :
    List (String × PlayerState) :=
  ps.filter fun kv => kv.1 ≠ k

/-- A hub-to-client message, by envelope `type` and structural payload. -/
inductive ServerMsg where
  | init (players : List (String × PlayerState)) (currentMood : Option JSValue)
      (chatHistory : List ChatMessage)
  | playerJoined (p : PlayerState)
  | playerMoved (id : String) (position rotation : Option JSValue)
  | playerLeft (id : String)
  | chatMessage (m : ChatMessage)
  | moodChange (mood : Option JSValue)
  | pong
  | error (message : String)

/-- One `conn.send(...)`: the receiving connection id, the message, and the
envelope's `Date.now()` timestamp. -/
structure Send where
  dest : String
  msg : ServerMsg
  timestamp : ℤ

/-- `this.broadcast(msg, exclude)`: send to every connection of the room's
registry whose id is not excluded. -/
def broadcast (conns : List String) (exclude : List String) (m : ServerMsg) (now : ℤ) :
    List Send :=
  (conns.filter fun c => ¬ exclude.contains c).map fun c =>
    { dest := c, msg := m, timestamp := now }

/-- `array.slice(-n)`: the suffix of the most recent `min n length` items. -/
def sliceLast (n : Nat) (l : List ChatMessage) : List ChatMessage :=
  l.drop (l.length - n)

/-- The chat-history bound: after a push, `slice(-50)` when over 50. -/
def clampChat (l : List ChatMessage) : List ChatMessage :=
  if 50 < l.length then sliceLast 50 l else l

/-- The player record created by an accepted JOIN (server.ts lines
124-132): falsy `name`/`avatar`/`avatarColor` default to `"Anonymous"`,
`"classic"`, `"#6366f1"`; spawn position `[0, 1.6, 5]`, rotation `0`,
`isActive = true`. -/
def joinPlayer (senderId : String) (payload : JSValue) : PlayerState :=
  { id := senderId,
    name := jsOr (payload.getField "name") (.str "Anonymous"),
    avatar := jsOr (payload.getField "avatar") (.str "classic"),
    avatarColor := jsOr (payload.getField "avatarColor") (.str "#6366f1"),
    position := some (.arr [.num 0, .num (8/5), .num 5]),
    rotation := some (.num 0),
    isActive := true }

/-- The updated player record stored by an accepted MOVE (server.ts lines
151-154): overwrite `position` and `rotation` with the raw payload fields
and set `isActive = true`; nothing else changes. -/
def movedPlayer (pl : PlayerState) (payload : JSValue) : PlayerState :=
  { pl with position := payload.getField "position",
            rotation := payload.getField "rotation",
            isActive := true }

/-- The chat message built by the CHAT handler. -/
def chatMsgOf (st : RoomState) (senderId : String) (text : JSValue) (now : ℤ) :
    ChatMessage :=
  { id := senderId ++ "-" ++ toString now,
    senderId := senderId,
    senderName := jsOr ((st.players.lookup senderId).map PlayerState.name) (.str "Unknown"),
    text := text,
    timestamp := now }

/-- `SynapticServer.onConnect`: send the new connection (only) an INIT
snapshot with the last 20 chat messages; the state is not touched. -/
def onConnect (connId : String) (now : ℤ) (st : RoomState) : RoomState × List Send :=
  (st, [{ dest := connId,
          msg := .init st.players st.currentMood (sliceLast 20 st.chatHistory),
          timestamp := now }])

/-- `SynapticServer.onMessage`.  `parsed?` is the outcome of
`JSON.parse(message)` wrapped in the handler's try/catch: `none` when the
string is not valid JSON (parse threw, handler returns).  `Except.error ()`
is an uncaught TypeError escaping the handler: reading `.type` of `null`,
or destructuring a missing/`null` payload.  All `Date.now()` calls during
one event are the single instant `now`. -/
def onMessage (conns : List String) (now : ℤ) (parsed? : Option JSValue)
    (senderId : String) (st : RoomState) : Except Unit (RoomState × List Send) :=
  match parsed? with
  | none => .ok (st, [])
  | some .null => .error ()
  | some parsed =>
    match parsed.getField "type" with
    | some (.str ty) =>
      if ty = "JOIN" then
        match destruct (parsed.getField "payload") with
        | .error e => .error e
        | .ok payload =>
          if 8 ≤ st.players.length then
            .ok (st, [{ dest := senderId,
                        msg := .error "Room is full (max 8 players)",
                        timestamp := now }])
          else
            .ok ({ st with players := setPlayer st.players senderId (joinPlayer senderId payload) },
                 broadcast conns [senderId] (.playerJoined (joinPlayer senderId payload)) now)
      else if ty = "MOVE" then
        match destruct (parsed.getField "payload") with
        | .error e => .error e
        | .ok payload =>
          match st.players.lookup senderId with
          | some pl =>
            .ok ({ st with players := setPlayer st.players senderId (movedPlayer pl payload) },
                 broadcast conns [senderId]
                   (.playerMoved senderId (payload.getField "position")
                     (payload.getField "rotation")) now)
          | none => .ok (st, [])
      else if ty = "CHAT" then
        match destruct (parsed.getField "payload") with
        | .error e => .error e
        | .ok payload =>
          match payload.getField "text" with
          | none => .ok (st, [])
          | some t =>
            if t.truthyV = false then .ok (st, [])
            else if jsLengthExceeds t 500 then .ok (st, [])
            else
              .ok ({ st with chatHistory := clampChat (st.chatHistory ++ [chatMsgOf st senderId t now]) },
                   broadcast conns [] (.chatMessage (chatMsgOf st senderId t now)) now)
      else if ty = "UPDATE_MOOD" then
        match destruct (parsed.getField "payload") with
        | .error e => .error e
        | .ok payload =>
          .ok ({ st with currentMood := payload.getField "mood" },
               broadcast conns [] (.moodChange (payload.getField "mood")) now)
      else if ty = "PING" then
        .ok (st, [{ dest := senderId, msg := .pong, timestamp := now }])
      else
        .ok (st, [])
    | _ => .ok (st, [])

/-- `SynapticServer.onClose`: delete the player (a no-op when absent) and
broadcast PLAYER_LEFT; `conns` is the registry after the closed connection
was removed, i.e. the remaining connections. -/
def onClose (conns : List String) (now : ℤ) (connId : String) (st : RoomState) :
    RoomState × List Send :=
  ({ st with players := delPlayer st.players connId },
   broadcast conns [] (.playerLeft connId) now)

/-- The room state after `onMessage` (on an uncaught exception nothing was
mutated: every throw in the handler precedes the first state write). -/
def onMessageState (conns : List String) (now : ℤ) (parsed? : Option JSValue)
    (senderId : String) (st : RoomState) : RoomState :=
  match onMessage conns now parsed? senderId st with
  | .ok (st2, _) => st2
  | .error _ => st

/-- One inbound hub event: a new connection, an inbound message, or a
connection close. -/
inductive HubEvent where
  | connect (connId : String) (now : ℤ)
  | message (conns : List String) (senderId : String) (parsed? : Option JSValue) (now : ℤ)
  | close (conns : List String) (connId : String) (now : ℤ)

/-- The state transition of one hub event. -/
def stepState (st : RoomState) (e : HubEvent) : RoomState :=
  match e with
  | .connect c now => (onConnect c now st).1
  | .message conns s p now => onMessageState conns now p s st
  | .close conns c now => (onClose conns now c st).1

/-- The hub state after a sequence of events from the initial state. -/
def runEvents (evs : List HubEvent) : RoomState :=
  evs.foldl stepState initialState

/-- A convenient well-formed client envelope `{type, payload}`. -/
def mkEnvelope (ty : String) (payload : JSValue) : JSValue :=
  .obj [("type", .str ty), ("payload", payload)]

/-- The client tuning constants (lib/constants.ts, MULTIPLAYER_SETTINGS). -/
structure MultiplayerSettings where
  maxPlayers : ℕ
  positionUpdateRate : ℚ
  interpolationSpeed : ℚ
  heartbeatInterval : ℚ
  reconnectDelay : ℚ
  maxReconnectAttempts : ℕ
  maxChatHistory : ℕ

/-- `MULTIPLAYER_SETTINGS` as defined in lib/constants.ts. -/
def MULTIPLAYER_SETTINGS : MultiplayerSettings :=
  { maxPlayers := 8,
    positionUpdateRate := 10,
    interpolationSpeed := 8,
    heartbeatInterval := 30000,
    reconnectDelay := 2000,
    maxReconnectAttempts := 5,
    maxChatHistory := 50 }

/-- A client-emitted MOVE payload. -/
structure ClientMove where
  position : ℚ × ℚ × ℚ
  rotation : ℚ

/-- `useMultiplayer.sendPosition`: given the current time and the
`lastPositionSend` ref, either drop the call (when less than
`1000 / positionUpdateRate` ms have elapsed) or update the ref and emit a
MOVE envelope.  Returns the new ref value and the emitted envelope. -/
def sendPosition (now : ℚ) (position : ℚ × ℚ × ℚ) (rotation : ℚ)
    (lastPositionSend : ℚ) : ℚ × Option ClientMove :=
  if now - lastPositionSend < 1000 / MULTIPLAYER_SETTINGS.positionUpdateRate then
    (lastPositionSend, none)
  else
    (now, some { position := position, rotation := rotation })

/-- The per-frame send gate of the `Controls` component: its
`lastSentPosition` and `lastSendTime` refs (both initialized to zero). -/
structure ControlsSendState where
  lastSentPosition : ℚ × ℚ × ℚ
  lastSendTime : ℚ

/-- Squared Euclidean distance between two positions.  The source compares
`pos.distanceTo(lastSentPosition) > 0.01`; both sides are nonnegative, so
this is equivalent to comparing the squared distance with `0.01²`, which
stays inside the rationals. -/
def distSq (a b : ℚ × ℚ × ℚ) : ℚ :=
  (a.1 - b.1) ^ 2 + (a.2.1 - b.2.1) ^ 2 + (a.2.2 - b.2.2) ^ 2

/-- The multiplayer branch of `Controls.useFrame` (steady state, after the
intro animation and with no tour target): invoke `onMove` only when more
than 100 ms passed since the last send and the camera moved more than 0.01
from the last sent position; only then refresh both refs. -/
def controlsPositionStep (now : ℚ) (pos : ℚ × ℚ × ℚ) (rotY : ℚ)
    (s : ControlsSendState) : ControlsSendState × Option ClientMove :=
  if 100 < now - s.lastSendTime then
    if (1 / 100) ^ 2 < distSq pos s.lastSentPosition then
      ({ lastSentPosition := pos, lastSendTime := now },
       some { position := pos, rotation := rotY })
    else (s, none)
  else (s, none)

/-- A room state whose chat history holds exactly 50 messages, used to
exercise the eviction path. -/
def fullChatState : RoomState :=
  { players := [],
    currentMood := some (.str "neutral"),
    chatHistory := (List.range 50).map fun i =>
      { id := toString i, senderId := "s", senderName := .str "s",
        text := .str "m", timestamp := (i : ℤ) } }

/-- A room state holding eight joined players, used to exercise the
capacity rejection. -/
def fullState : RoomState :=
  { players := ["p1", "p2", "p3", "p4", "p5", "p6", "p7", "p8"].map fun n =>
      (n, joinPlayer n (.obj [])),
    currentMood := some (.str "neutral"),
    chatHistory := [] }

/-- A room state with the single joined player `"a"`, used to exercise the
MOVE handler at concrete inputs. -/
def oneJoinedState : RoomState :=
  { players := [("a", joinPlayer "a" (.obj []))],
    currentMood := some (.str "neutral"),
    chatHistory := [] }

/-- A concrete well-formed MOVE payload. -/
def movePayloadCex : JSValue :=
  .obj [("position", .arr [.num 1, .num 2, .num 3]), ("rotation", .num 1)]

theorem setPlayer_length_le (ps : List (String × PlayerState)) (k : String)
    (v : PlayerState) : (setPlayer ps k v).length ≤ ps.length + 1 := by
  unfold setPlayer
  split
  · simp [Nat.le_succ]
  · simp

theorem setPlayer_length_of_isSome (ps : List (String × PlayerState)) (k : String)
    (v : PlayerState) (h : (ps.lookup k).isSome) :
    (setPlayer ps k v).length = ps.length := by
  unfold setPlayer
  simp [h]

theorem lookup_mapSet_self (tl : List (String × PlayerState)) (k : String)
    (v : PlayerState) (h : (tl.lookup k).isSome) :
    (tl.map fun kv => if kv.1 = k then (k, v) else kv).lookup k = some v := by
  induction tl with
  | nil => simp [List.lookup] at h
  | cons hd tl ih =>
      obtain ⟨a, b⟩ := hd
      by_cases ha : a = k
      · subst ha
        simp [List.lookup_cons]
      · have hka : (k == a) = false := by simp [Ne.symm ha]
        simp only [List.lookup_cons, hka] at h
        simpa [List.lookup_cons, if_neg ha, hka] using ih h

theorem lookup_append_self (tl : List (String × PlayerState)) (k : String)
    (v : PlayerState) (h : tl.lookup k = none) :
    (tl ++ [(k, v)]).lookup k = some v := by
  induction tl with
  | nil => simp [List.lookup]
  | cons hd tl ih =>
      obtain ⟨a, b⟩ := hd
      by_cases ha : a = k
      · subst ha
        simp [List.lookup_cons] at h
      · have hka : (k == a) = false := by simp [Ne.symm ha]
        simp only [List.lookup_cons, hka] at h
        simpa [List.lookup_cons, hka] using ih h

theorem lookup_mapSet_ne (tl : List (String × PlayerState)) (k k2 : String)
    (v : PlayerState) (h : k2 ≠ k) :
    (tl.map fun kv => if kv.1 = k then (k, v) else kv).lookup k2 = tl.lookup k2 := by
  induction tl with
  | nil => simp
  | cons hd tl ih =>
      obtain ⟨a, b⟩ := hd
      by_cases ha : a = k
      · subst ha
        have h2 : (k2 == a) = false := by simp [h]
        simpa [List.lookup_cons, h2] using ih
      · by_cases hk2 : k2 = a
        · subst hk2
          simp [List.lookup_cons, if_neg ha]
        · have h2 : (k2 == a) = false := by simp [hk2]
          simpa [List.lookup_cons, h2, if_neg ha] using ih

theorem lookup_append_ne (tl : List (String × PlayerState)) (k k2 : String)
    (v : PlayerState) (h : k2 ≠ k) :
    (tl ++ [(k, v)]).lookup k2 = tl.lookup k2 := by
  have h2 : (k2 == k) = false := by simp [h]
  induction tl with
  | nil => simp [List.lookup, h2]
  | cons hd tl ih =>
      obtain ⟨a, b⟩ := hd
      by_cases hk2 : k2 = a
      · subst hk2
        simp [List.lookup_cons]
      · have h2 : (k2 == a) = false := by simp [hk2]
        simpa [List.lookup_cons, h2] using ih

theorem lookup_setPlayer_self (ps : List (String × PlayerState)) (k : String)
    (v : PlayerState) : (setPlayer ps k v).lookup k = some v := by
  unfold setPlayer
  split
  · exact lookup_mapSet_self ps k v (by assumption)
  · refine lookup_append_self ps k v ?_
    rename_i h
    exact Option.not_isSome_iff_eq_none.mp h

theorem lookup_setPlayer_ne (ps : List (String × PlayerState)) (k k2 : String)
    (v : PlayerState) (h : k2 ≠ k) :
    (setPlayer ps k v).lookup k2 = ps.lookup k2 := by
  unfold setPlayer
  split
  · exact lookup_mapSet_ne ps k k2 v h
  · exact lookup_append_ne ps k k2 v h

theorem lookup_delPlayer_self (ps : List (String × PlayerState)) (k : String) :
    (delPlayer ps k).lookup k = none := by
  unfold delPlayer
  induction ps with
  | nil => simp
  | cons hd tl ih =>
      obtain ⟨a, b⟩ := hd
      by_cases ha : a = k
      · simpa [List.filter, ha] using ih
      · have hka : (k == a) = false := by simp [Ne.symm ha]
        simpa [List.filter, ha, List.lookup_cons, hka] using ih

theorem lookup_delPlayer_ne (ps : List (String × PlayerState)) (k k2 : String)
    (h : k2 ≠ k) : (delPlayer ps k).lookup k2 = ps.lookup k2 := by
  unfold delPlayer
  induction ps with
  | nil => simp
  | cons hd tl ih =>
      obtain ⟨a, b⟩ := hd
      by_cases ha : a = k
      · subst ha
        have h2 : (k2 == a) = false := by simp [h]
        simpa [List.filter, List.lookup_cons, h2] using ih
      · by_cases hk2 : k2 = a
        · subst hk2
          simp [List.filter, ha, List.lookup_cons]
        · have h2 : (k2 == a) = false := by simp [hk2]
          simpa [List.filter, ha, List.lookup_cons, h2] using ih

theorem delPlayer_idem (ps : List (String × PlayerState)) (k : String) :
    delPlayer (delPlayer ps k) k = delPlayer ps k := by
  unfold delPlayer
  rw [List.filter_filter]
  simp

theorem delPlayer_of_lookup_none (ps : List (String × PlayerState)) (k : String)
    (h : ps.lookup k = none) : delPlayer ps k = ps := by
  unfold delPlayer
  induction ps with
  | nil => simp
  | cons hd tl ih =>
      obtain ⟨a, b⟩ := hd
      by_cases ha : a = k
      · subst ha
        simp [List.lookup_cons] at h
      · have hka : (k == a) = false := by simp [Ne.symm ha]
        simp only [List.lookup_cons, hka] at h
        simpa [List.filter, ha] using ih h

theorem sliceLast_length (n : Nat) (l : List ChatMessage) :
    (sliceLast n l).length = min n l.length := by
  unfold sliceLast
  simp [List.length_drop]
  omega

theorem take_append_sliceLast (n : Nat) (l : List ChatMessage) :
    l.take (l.length - n) ++ sliceLast n l = l := by
  unfold sliceLast
  exact List.take_append_drop _ l

theorem clampChat_length_le (l : List ChatMessage) (h : l.length ≤ 51) :
    (clampChat l).length ≤ 50 := by
  unfold clampChat
  split
  · rw [sliceLast_length]
    omega
  · omega

theorem clampChat_of_le (l : List ChatMessage) (h : l.length ≤ 50) :
    clampChat l = l := by
  unfold clampChat
  rw [if_neg]
  omega

theorem clampChat_eq_drop (l : List ChatMessage) (h : l.length = 51) :
    clampChat l = l.drop 1 := by
  unfold clampChat sliceLast
  rw [if_pos]
  · rw [h]
  · omega

theorem broadcast_no_exclude (conns : List String) (m : ServerMsg) (now : ℤ) :
    broadcast conns [] m now
      = conns.map fun c => { dest := c, msg := m, timestamp := now } := by
  unfold broadcast
  simp

theorem onMessage_ok_bounds (conns : List String) (now : ℤ) (parsed? : Option JSValue)
    (senderId : String) (st st2 : RoomState) (sends : List Send)
    (heq : onMessage conns now parsed? senderId st = .ok (st2, sends))
    (hp : st.players.length ≤ 8) (hc : st.chatHistory.length ≤ 50) :
    st2.players.length ≤ 8 ∧ st2.chatHistory.length ≤ 50 := by
  unfold onMessage at heq
  split at heq
  · cases heq
    exact ⟨hp, hc⟩
  · cases heq
  · split at heq
    · rename_i ty
      split at heq
      · -- JOIN
        split at heq
        · cases heq
        · split at heq
          · cases heq
            exact ⟨hp, hc⟩
          · cases heq
            rename_i hfull _
            constructor
            · refine le_trans (setPlayer_length_le _ _ _) ?_
              omega
            · exact hc
      · split at heq
        · -- MOVE
          split at heq
          · cases heq
          · split at heq
            · rename_i pl hpl
              cases heq
              constructor
              · rw [setPlayer_length_of_isSome]
                · exact hp
                · simp [hpl]
              · exact hc
            · cases heq
              exact ⟨hp, hc⟩
        · split at heq
          · -- CHAT
            split at heq
            · cases heq
            · split at heq
              · cases heq
                exact ⟨hp, hc⟩
              · split at heq
                · cases heq
                  exact ⟨hp, hc⟩
                · split at heq
                  · cases heq
                    exact ⟨hp, hc⟩
                  · cases heq
                    refine ⟨hp, clampChat_length_le _ ?_⟩
                    simp
                    omega
          · split at heq
            · -- UPDATE_MOOD
              split at heq
              · cases heq
              · cases heq
                exact ⟨hp, hc⟩
            · split at heq
              · -- PING
                cases heq
                exact ⟨hp, hc⟩
              · cases heq
                exact ⟨hp, hc⟩
    · cases heq
      exact ⟨hp, hc⟩

theorem stepState_bounds (st : RoomState) (e : HubEvent)
    (hp : st.players.length ≤ 8) (hc : st.chatHistory.length ≤ 50) :
    (stepState st e).players.length ≤ 8 ∧ (stepState st e).chatHistory.length ≤ 50 := by
  cases e with
  | connect c now => exact ⟨hp, hc⟩
  | message conns s p now =>
      simp only [stepState, onMessageState]
      split
      · rename_i st2 sends heq
        exact onMessage_ok_bounds conns now p s st st2 sends heq hp hc
      · exact ⟨hp, hc⟩
  | close conns c now =>
      refine ⟨le_trans ?_ hp, hc⟩
      simpa [stepState, onClose, delPlayer] using List.length_filter_le _ st.players

theorem runEvents_bounds (evs : List HubEvent) :
    (runEvents evs).players.length ≤ 8 ∧ (runEvents evs).chatHistory.length ≤ 50 := by
  unfold runEvents
  have h : ∀ (st : RoomState), st.players.length ≤ 8 → st.chatHistory.length ≤ 50 →
      (evs.foldl stepState st).players.length ≤ 8
        ∧ (evs.foldl stepState st).chatHistory.length ≤ 50 := by
    induction evs with
    | nil => exact fun st hp hc => ⟨hp, hc⟩
    | cons e tl ih =>
        intro st hp hc
        have h2 := stepState_bounds st e hp hc
        exact ih (stepState st e) h2.1 h2.2
  exact h initialState (by simp [initialState]) (by simp [initialState])

theorem destruct_some_of_ne_null (v : JSValue) (h : v ≠ .null) :
    destruct (some v) = .ok v := by
  cases v <;> simp_all [destruct]

theorem getField_mkEnvelope_type (ty : String) (payload : JSValue) :
    (mkEnvelope ty payload).getField "type" = some (.str ty) := rfl

theorem getField_mkEnvelope_payload (ty : String) (payload : JSValue) :
    (mkEnvelope ty payload).getField "payload" = some payload := rfl

/-- Claim C1: when the room already holds 8 or more players, a JOIN envelope
is answered by a single ERROR envelope to the sending connection only and the
room state (players, mood, chat history) is completely unchanged; moreover
the player count stays at most 8 after any sequence of hub events from the
initial state. -/
theorem join_rejected_when_full (conns : List String) (now : ℤ) (senderId : String)
    (payload : JSValue) (st : RoomState)
    (hfull : 8 ≤ st.players.length) (hp : payload ≠ JSValue.null) :
    onMessage conns now (some (mkEnvelope "JOIN" payload)) senderId st
      = .ok (st, [{ dest := senderId, msg := .error "Room is full (max 8 players)",
                    timestamp := now }])
    ∧ ∀ evs : List HubEvent, (runEvents evs).players.length ≤ 8 := by
  refine ⟨?_, fun evs => (runEvents_bounds evs).1⟩
  simp [onMessage, mkEnvelope, JSValue.getField, List.lookup,
    destruct_some_of_ne_null payload hp, hfull]

theorem join_rejected_when_full_witness :
    onMessage ["p1"] 0 (some (mkEnvelope "JOIN" (JSValue.obj []))) "p9" fullState
      = .ok (fullState, [{ dest := "p9", msg := .error "Room is full (max 8 players)",
                           timestamp := 0 }])
    ∧ ∀ evs : List HubEvent, (runEvents evs).players.length ≤ 8 :=
  join_rejected_when_full ["p1"] 0 "p9" (JSValue.obj []) fullState
    (by simp [fullState]) (fun h => JSValue.noConfusion h)

/-- Claim C2 (refuted, code bug): the handler is not total on valid-JSON
envelopes.  The message `\x7b"type":"JOIN"\x7d` — a known type with a missing
payload — parses fine, but the JOIN case destructures the `undefined`
payload and throws a TypeError; the message `null` parses to `null` and the
switch scrutinee `parsed.type` throws.  Unknown types and non-JSON strings
are indeed dropped silently without mutation. -/
theorem onMessage_throws_on_missing_payload :
    onMessage ["c1"] 0 (some (JSValue.obj [("type", JSValue.str "JOIN")])) "c1"
        initialState = .error ()
    ∧ onMessage ["c1"] 0 (some JSValue.null) "c1" initialState = .error ()
    ∧ onMessage ["c1"] 0 none "c1" initialState = .ok (initialState, [])
    ∧ onMessage ["c1"] 0 (some (JSValue.obj [("type", JSValue.str "NONSENSE")]))
        "c1" initialState = .ok (initialState, []) :=
  ⟨rfl, rfl, rfl, rfl⟩

theorem getField_env_type (ty : String) (payload : JSValue) :
    JSValue.getField (.obj [("type", .str ty), ("payload", payload)]) "type"
      = some (.str ty) := rfl

theorem getField_env_payload (ty : String) (payload : JSValue) :
    JSValue.getField (.obj [("type", .str ty), ("payload", payload)]) "payload"
      = some payload := rfl

/-- Claim C3 counterexample: a CHAT from a connection that never joined is
not ignored — on the empty initial room, a CHAT from "a" changes the room
state (and broadcasts), refuting the claim that the hub ignores it. -/
theorem chat_from_nonjoined_not_ignored :
    onMessage ["a", "b"] 5
        (some (mkEnvelope "CHAT" (JSValue.obj [("text", JSValue.str "hi")]))) "a"
        initialState
      ≠ .ok (initialState, []) := by
  intro h
  have h2 : (1 : ℕ) = 0 :=
    congrArg
      (fun r => match r with
        | Except.ok (s, _) => s.chatHistory.length
        | Except.error _ => 99) h
  exact one_ne_zero h2

/-- Claim C3 (amended): a MOVE from a non-joined connection is silently
ignored — no player record is created, the state is unchanged and nothing is
sent; a CHAT from a non-joined connection with valid text, however, is
accepted by the hub: the message is appended with senderName "Unknown" and
broadcast CHAT_MESSAGE to every connection. -/
theorem nonjoined_move_ignored_chat_stored (conns : List String) (now : ℤ)
    (senderId : String) (payload : JSValue) (st : RoomState)
    (hnj : st.players.lookup senderId = none) (hp : payload ≠ JSValue.null) :
    onMessage conns now (some (mkEnvelope "MOVE" payload)) senderId st = .ok (st, [])
    ∧ ∀ t : JSValue, payload.getField "text" = some t → t.truthyV = true →
        jsLengthExceeds t 500 = false →
        onMessage conns now (some (mkEnvelope "CHAT" payload)) senderId st
          = .ok ({ st with
                   chatHistory := clampChat (st.chatHistory ++ [chatMsgOf st senderId t now]) },
                 broadcast conns [] (.chatMessage (chatMsgOf st senderId t now)) now)
        ∧ (chatMsgOf st senderId t now).senderName = JSValue.str "Unknown" := by
  constructor
  · simp [onMessage, mkEnvelope, getField_env_type, getField_env_payload,
      destruct_some_of_ne_null payload hp, hnj]
  · intro t ht htr hlen
    constructor
    · simp [onMessage, mkEnvelope, getField_env_type, getField_env_payload,
        destruct_some_of_ne_null payload hp, ht, htr, hlen]
    · simp [chatMsgOf, hnj, jsOr]

theorem nonjoined_move_ignored_chat_stored_witness :
    onMessage ["a", "b"] 5
        (some (mkEnvelope "MOVE" (JSValue.obj [("text", JSValue.str "hi")]))) "a"
        initialState = .ok (initialState, [])
    ∧ (chatMsgOf initialState "a" (JSValue.str "hi") 5).senderName
        = JSValue.str "Unknown" :=
  ⟨(nonjoined_move_ignored_chat_stored ["a", "b"] 5 "a"
      (JSValue.obj [("text", JSValue.str "hi")]) initialState rfl
      (fun h => JSValue.noConfusion h)).1,
   ((nonjoined_move_ignored_chat_stored ["a", "b"] 5 "a"
      (JSValue.obj [("text", JSValue.str "hi")]) initialState rfl
      (fun h => JSValue.noConfusion h)).2 (JSValue.str "hi") rfl rfl rfl).2⟩

/-- Claim C4: the chat history of every reachable hub state has at most 50
messages, and from a state holding exactly 50 messages an accepted CHAT
evicts exactly the oldest message, keeps the remaining 49 in order, and
appends the new message last. -/
theorem chat_history_bounded_and_evicts (conns : List String) (now : ℤ)
    (senderId : String) (payload t : JSValue) (st : RoomState)
    (h50 : st.chatHistory.length = 50)
    (ht : payload.getField "text" = some t)
    (htr : t.truthyV = true)
    (hlen : jsLengthExceeds t 500 = false) :
    (∀ evs : List HubEvent, (runEvents evs).chatHistory.length ≤ 50)
    ∧ onMessage conns now (some (mkEnvelope "CHAT" payload)) senderId st
        = .ok ({ st with
                 chatHistory := st.chatHistory.drop 1
                   ++ [chatMsgOf st senderId t now] },
               broadcast conns [] (.chatMessage (chatMsgOf st senderId t now)) now) := by
  have hp : payload ≠ JSValue.null := by
    intro h
    subst h
    simp [JSValue.getField] at ht
  refine ⟨fun evs => (runEvents_bounds evs).2, ?_⟩
  have hclamp : clampChat (st.chatHistory ++ [chatMsgOf st senderId t now])
      = st.chatHistory.drop 1 ++ [chatMsgOf st senderId t now] := by
    rw [clampChat_eq_drop _ (by simp [h50]),
        List.drop_append_of_le_length (by omega)]
  simp [onMessage, mkEnvelope, getField_env_type, getField_env_payload,
    destruct_some_of_ne_null payload hp, ht, htr, hlen, hclamp]

theorem chat_history_bounded_and_evicts_witness :
    (∀ evs : List HubEvent, (runEvents evs).chatHistory.length ≤ 50)
    ∧ onMessage ["a"] 7
        (some (mkEnvelope "CHAT" (JSValue.obj [("text", JSValue.str "hi")]))) "a"
        fullChatState
        = .ok ({ fullChatState with
                 chatHistory := fullChatState.chatHistory.drop 1
                   ++ [chatMsgOf fullChatState "a" (JSValue.str "hi") 7] },
               broadcast ["a"] []
                 (.chatMessage (chatMsgOf fullChatState "a" (JSValue.str "hi") 7)) 7) :=
  chat_history_bounded_and_evicts ["a"] 7 "a"
    (JSValue.obj [("text", JSValue.str "hi")]) (JSValue.str "hi") fullChatState
    rfl rfl rfl rfl

theorem broadcast_not_excluded (conns exclude : List String) (m : ServerMsg)
    (now : ℤ) : ∀ s ∈ broadcast conns exclude m now, s.dest ∉ exclude := by
  intro s hs
  simp only [broadcast, List.mem_map, List.mem_filter] at hs
  obtain ⟨c, ⟨hc, hnc⟩, rfl⟩ := hs
  simpa using hnc

/-- Claim C5 (amended): a MOVE from a joined connection overwrites that
player's position and rotation with the raw payload values, sets isActive
to true, leaves every other player and all other room-state fields
unchanged, and broadcasts PLAYER_MOVED to every connection except the
sender.  The hub's PlayerState has no lastActive field, so no timestamp is
refreshed server-side (the client mirror stamps lastActive itself when it
receives PLAYER_MOVED). -/
theorem move_updates_player_and_broadcasts (conns : List String) (now : ℤ)
    (senderId : String) (payload : JSValue) (st : RoomState) (pl : PlayerState)
    (hpl : st.players.lookup senderId = some pl) (hp : payload ≠ JSValue.null) :
    onMessage conns now (some (mkEnvelope "MOVE" payload)) senderId st
      = .ok ({ st with players := setPlayer st.players senderId (movedPlayer pl payload) },
             broadcast conns [senderId]
               (.playerMoved senderId (payload.getField "position")
                 (payload.getField "rotation")) now)
    ∧ (setPlayer st.players senderId (movedPlayer pl payload)).lookup senderId
        = some (movedPlayer pl payload)
    ∧ (∀ k, k ≠ senderId →
        (setPlayer st.players senderId (movedPlayer pl payload)).lookup k
          = st.players.lookup k)
    ∧ ∀ s ∈ broadcast conns [senderId]
        (.playerMoved senderId (payload.getField "position")
          (payload.getField "rotation")) now, s.dest ≠ senderId := by
  refine ⟨?_, lookup_setPlayer_self _ _ _,
    fun k hk => lookup_setPlayer_ne _ _ _ _ hk, fun s hs => ?_⟩
  · simp [onMessage, mkEnvelope, getField_env_type, getField_env_payload,
      destruct_some_of_ne_null payload hp, hpl]
  · have h2 := broadcast_not_excluded conns [senderId]
      (.playerMoved senderId (payload.getField "position")
        (payload.getField "rotation")) now s hs
    simpa using h2

theorem move_updates_player_and_broadcasts_witness :
    onMessage ["a", "b"] 0 (some (mkEnvelope "MOVE" movePayloadCex)) "a"
        oneJoinedState
      = .ok ({ oneJoinedState with
               players := setPlayer oneJoinedState.players "a"
                 (movedPlayer (joinPlayer "a" (.obj [])) movePayloadCex) },
             broadcast ["a", "b"] ["a"]
               (.playerMoved "a" (movePayloadCex.getField "position")
                 (movePayloadCex.getField "rotation")) 0) :=
  (move_updates_player_and_broadcasts ["a", "b"] 0 "a" movePayloadCex
    oneJoinedState (joinPlayer "a" (.obj [])) rfl
    (fun h => JSValue.noConfusion h)).1

/-- Claim C5 counterexample: the hub's MOVE transition does not read the
clock at all — processing the same MOVE at Date.now() = 0 and at
Date.now() = 999 yields literally identical post-states, and the stored
player record after the MOVE consists of exactly the fields id, name,
avatar, avatarColor, position, rotation and isActive.  Were a lastActive
timestamp refreshed by an accepted MOVE, the two post-states would differ. -/
theorem move_state_ignores_clock :
    onMessageState ["a", "b"] 0 (some (mkEnvelope "MOVE" movePayloadCex)) "a"
        oneJoinedState
      = onMessageState ["a", "b"] 999 (some (mkEnvelope "MOVE" movePayloadCex)) "a"
        oneJoinedState
    ∧ (onMessageState ["a", "b"] 0 (some (mkEnvelope "MOVE" movePayloadCex)) "a"
        oneJoinedState).players.lookup "a"
      = some { id := "a", name := .str "Anonymous", avatar := .str "classic",
               avatarColor := .str "#6366f1",
               position := some (.arr [.num 1, .num 2, .num 3]),
               rotation := some (.num 1), isActive := true } :=
  ⟨rfl, rfl⟩

/-- Claim C6: a new connection receives exactly one INIT envelope — sent to
it alone — snapshotting the current players, the current mood, and the most
recent min(20, length) chat messages, which form a suffix of the history
(most recent, in order); the room state is unchanged. -/
theorem init_snapshot_on_connect (connId : String) (now : ℤ) (st : RoomState) :
    onConnect connId now st
      = (st, [{ dest := connId,
                msg := .init st.players st.currentMood (sliceLast 20 st.chatHistory),
                timestamp := now }])
    ∧ (sliceLast 20 st.chatHistory).length = min 20 st.chatHistory.length
    ∧ st.chatHistory.take (st.chatHistory.length - 20) ++ sliceLast 20 st.chatHistory
        = st.chatHistory :=
  ⟨rfl, sliceLast_length _ _, take_append_sliceLast _ _⟩

/-- Claim C7: UPDATE_MOOD overwrites currentMood with the raw payload mood
unconditionally and broadcasts MOOD_CHANGE to every connection, the sender
included; processing the same envelope twice leaves the same stored mood as
processing it once, while each processing produces its own broadcast of
`conns.length` sends (no deduplication). -/
theorem update_mood_lww (conns : List String) (now : ℤ) (senderId : String)
    (payload : JSValue) (st : RoomState) (hp : payload ≠ JSValue.null) :
    onMessage conns now (some (mkEnvelope "UPDATE_MOOD" payload)) senderId st
      = .ok ({ st with currentMood := payload.getField "mood" },
             broadcast conns [] (.moodChange (payload.getField "mood")) now)
    ∧ (senderId ∈ conns →
        { dest := senderId, msg := ServerMsg.moodChange (payload.getField "mood"),
          timestamp := now }
          ∈ broadcast conns [] (.moodChange (payload.getField "mood")) now)
    ∧ onMessageState conns now (some (mkEnvelope "UPDATE_MOOD" payload)) senderId
        (onMessageState conns now (some (mkEnvelope "UPDATE_MOOD" payload)) senderId st)
      = onMessageState conns now (some (mkEnvelope "UPDATE_MOOD" payload)) senderId st
    ∧ (broadcast conns [] (.moodChange (payload.getField "mood")) now).length
        = conns.length := by
  have key : ∀ s : RoomState,
      onMessage conns now (some (mkEnvelope "UPDATE_MOOD" payload)) senderId s
        = .ok ({ s with currentMood := payload.getField "mood" },
               broadcast conns [] (.moodChange (payload.getField "mood")) now) := by
    intro s
    simp [onMessage, mkEnvelope, getField_env_type, getField_env_payload,
      destruct_some_of_ne_null payload hp]
  refine ⟨key st, ?_, ?_, ?_⟩
  · intro hmem
    rw [broadcast_no_exclude]
    exact List.mem_map_of_mem _ hmem
  · simp [onMessageState, key]
  · rw [broadcast_no_exclude, List.length_map]

theorem update_mood_lww_witness :
    onMessage ["a"] 3
        (some (mkEnvelope "UPDATE_MOOD" (JSValue.obj [("mood", JSValue.str "joyful")])))
        "a" initialState
      = .ok ({ initialState with
               currentMood := (JSValue.obj [("mood", JSValue.str "joyful")]).getField "mood" },
             broadcast ["a"] []
               (.moodChange ((JSValue.obj [("mood", JSValue.str "joyful")]).getField "mood"))
               3) :=
  (update_mood_lww ["a"] 3 "a" (JSValue.obj [("mood", JSValue.str "joyful")])
    initialState (fun h => JSValue.noConfusion h)).1

theorem broadcast_filter_dest_nil (cs : List String) (m : ServerMsg) (now : ℤ)
    (x : String) (h : x ∉ cs) :
    ((cs.map fun c => { dest := c, msg := m, timestamp := now : Send }).filter
      fun s => s.dest == x) = [] := by
  induction cs with
  | nil => rfl
  | cons c cs ih =>
      simp only [List.mem_cons, not_or] at h
      obtain ⟨hxc, hxs⟩ := h
      have hbe : (c == x) = false := by
        simp only [beq_eq_false_iff_ne, ne_eq]
        exact fun hc => hxc hc.symm
      simp [List.filter_cons, hbe, ih hxs]

theorem broadcast_filter_dest (conns : List String) (m : ServerMsg) (now : ℤ)
    (x : String) : x ∈ conns → conns.Nodup →
    ((broadcast conns [] m now).filter fun s => s.dest == x)
      = [{ dest := x, msg := m, timestamp := now }] := by
  rw [broadcast_no_exclude]
  induction conns with
  | nil =>
      intro hx _
      cases hx
  | cons c cs ih =>
      intro hx hnd
      rw [List.nodup_cons] at hnd
      obtain ⟨hc, hnd2⟩ := hnd
      by_cases hcx : c = x
      · subst hcx
        simp [List.filter_cons, broadcast_filter_dest_nil cs m now c hc]
      · have hbe : (c == x) = false := by simp [hcx]
        have hx2 : x ∈ cs := by
          rcases List.mem_cons.mp hx with h | h
          · exact absurd h.symm hcx
          · exact h
        simp [List.filter_cons, hbe, ih hx2 hnd2]

/-- Claim C9: a connection close removes that connection's player record
when present and leaves every other player, the mood and the chat history
unchanged; each of the remaining (distinct) connections receives exactly
one PLAYER_LEFT for the closed id; closing twice is idempotent on state,
and closing a connection that never joined completes without mutating the
player table. -/
theorem close_removes_player_and_broadcasts_left (conns : List String) (now : ℤ)
    (connId x : String) (st : RoomState) (hx : x ∈ conns) (hnd : conns.Nodup) :
    onClose conns now connId st
      = ({ st with players := delPlayer st.players connId },
         broadcast conns [] (.playerLeft connId) now)
    ∧ (delPlayer st.players connId).lookup connId = none
    ∧ (∀ k, k ≠ connId →
        (delPlayer st.players connId).lookup k = st.players.lookup k)
    ∧ ((broadcast conns [] (.playerLeft connId) now).filter fun s => s.dest == x)
        = [{ dest := x, msg := .playerLeft connId, timestamp := now }]
    ∧ (onClose conns now connId (onClose conns now connId st).1).1
        = (onClose conns now connId st).1
    ∧ (st.players.lookup connId = none →
        (onClose conns now connId st).1.players = st.players) := by
  refine ⟨rfl, lookup_delPlayer_self _ _, fun k hk => lookup_delPlayer_ne _ _ _ hk,
    broadcast_filter_dest conns (.playerLeft connId) now x hx hnd, ?_, ?_⟩
  · simp [onClose, delPlayer_idem]
  · intro hnone
    simp [onClose, delPlayer_of_lookup_none _ _ hnone]

theorem close_removes_player_and_broadcasts_left_witness :
    onClose ["b", "c"] 4 "a" oneJoinedState
      = ({ oneJoinedState with players := delPlayer oneJoinedState.players "a" },
         broadcast ["b", "c"] [] (.playerLeft "a") 4)
    ∧ ((broadcast ["b", "c"] [] (.playerLeft "a") 4).filter fun s => s.dest == "b")
        = [{ dest := "b", msg := .playerLeft "a", timestamp := 4 }] :=
  ⟨(close_removes_player_and_broadcasts_left ["b", "c"] 4 "a" "b" oneJoinedState
      (by simp) (by simp)).1,
   (close_removes_player_and_broadcasts_left ["b", "c"] 4 "a" "b" oneJoinedState
      (by simp) (by simp)).2.2.2.1⟩

/-- Claim C10: an accepted JOIN stores a player record with spawn position
[0, 1.6, 5] (1.6 = 8/5), rotation 0 and isActive = true; a missing or empty
name, avatar or avatarColor defaults to "Anonymous", "classic" and
"#6366f1" respectively; and a JOIN from a connection already present
overwrites its existing entry in place — resetting it to the spawn record —
so the player count does not increase. -/
theorem join_accepted_spawn_defaults (conns : List String) (now : ℤ)
    (senderId : String) (payload : JSValue) (st : RoomState)
    (hroom : st.players.length < 8) (hp : payload ≠ JSValue.null) :
    onMessage conns now (some (mkEnvelope "JOIN" payload)) senderId st
      = .ok ({ st with
               players := setPlayer st.players senderId (joinPlayer senderId payload) },
             broadcast conns [senderId]
               (.playerJoined (joinPlayer senderId payload)) now)
    ∧ (joinPlayer senderId payload).position
        = some (.arr [.num 0, .num (8/5), .num 5])
    ∧ (joinPlayer senderId payload).rotation = some (.num 0)
    ∧ (joinPlayer senderId payload).isActive = true
    ∧ ((payload.getField "name" = none ∨ payload.getField "name" = some (.str "")) →
        (joinPlayer senderId payload).name = .str "Anonymous")
    ∧ ((payload.getField "avatar" = none ∨ payload.getField "avatar" = some (.str "")) →
        (joinPlayer senderId payload).avatar = .str "classic")
    ∧ ((payload.getField "avatarColor" = none
          ∨ payload.getField "avatarColor" = some (.str "")) →
        (joinPlayer senderId payload).avatarColor = .str "#6366f1")
    ∧ ((st.players.lookup senderId).isSome →
        (setPlayer st.players senderId (joinPlayer senderId payload)).length
            = st.players.length
        ∧ (setPlayer st.players senderId (joinPlayer senderId payload)).lookup senderId
            = some (joinPlayer senderId payload)) := by
  have hn8 : ¬ (8 ≤ st.players.length) := by omega
  refine ⟨?_, rfl, rfl, rfl, ?_, ?_, ?_,
    fun hs => ⟨setPlayer_length_of_isSome _ _ _ hs, lookup_setPlayer_self _ _ _⟩⟩
  · simp [onMessage, mkEnvelope, getField_env_type, getField_env_payload,
      destruct_some_of_ne_null payload hp, hn8]
  · rintro (h | h) <;> simp [joinPlayer, jsOr, h, JSValue.truthyV]
  · rintro (h | h) <;> simp [joinPlayer, jsOr, h, JSValue.truthyV]
  · rintro (h | h) <;> simp [joinPlayer, jsOr, h, JSValue.truthyV]

theorem join_accepted_spawn_defaults_witness :
    onMessage ["a"] 0 (some (mkEnvelope "JOIN" (JSValue.obj []))) "a" initialState
      = .ok ({ initialState with
               players := setPlayer initialState.players "a" (joinPlayer "a" (.obj [])) },
             broadcast ["a"] ["a"] (.playerJoined (joinPlayer "a" (.obj []))) 0)
    ∧ (joinPlayer "a" (JSValue.obj [])).name = .str "Anonymous" :=
  ⟨(join_accepted_spawn_defaults ["a"] 0 "a" (JSValue.obj []) initialState
      (by simp [initialState]) (fun h => JSValue.noConfusion h)).1,
   (join_accepted_spawn_defaults ["a"] 0 "a" (JSValue.obj []) initialState
      (by simp [initialState]) (fun h => JSValue.noConfusion h)).2.2.2.2.1
     (Or.inl rfl)⟩

/-- Claim C8 counterexample: two calls to sendPosition 200 ms apart carrying
the identical position both emit a MOVE envelope — a zero positional delta
does not suppress the send, refuting the claimed minimum positional-delta
threshold inside sendPosition. -/
theorem sendPosition_no_delta_suppression :
    ((sendPosition 1000 (0, 0, 0) 0 0).2).isSome = true
    ∧ ((sendPosition 1200 (0, 0, 0) 0 (sendPosition 1000 (0, 0, 0) 0 0).1).2).isSome
        = true := by
  constructor <;> norm_num [sendPosition, MULTIPLAYER_SETTINGS]

/-- Claim C8 (amended): sendPosition applies only the time throttle — a call
emits iff at least 1000/positionUpdateRate = 100 ms have elapsed since the
last emitted MOVE, and the throttle ref is refreshed only on emission; the
minimum positional-delta suppression (threshold 0.01, compared here as
squared distance against 0.01² = 1/10000) is implemented upstream in the
Controls component, which fires a send only when more than 100 ms have
elapsed and the camera moved more than 0.01 from the last sent position. -/
theorem position_send_throttling (now lastSend : ℚ) (p : ℚ × ℚ × ℚ) (r : ℚ)
    (t : ℚ) (pos : ℚ × ℚ × ℚ) (rotY : ℚ) (s : ControlsSendState) :
    ((sendPosition now p r lastSend).2 = some { position := p, rotation := r }
        ↔ 100 ≤ now - lastSend)
    ∧ ((sendPosition now p r lastSend).2 = none ↔ now - lastSend < 100)
    ∧ (sendPosition now p r lastSend).1
        = (if now - lastSend < 100 then lastSend else now)
    ∧ ((controlsPositionStep t pos rotY s).2.isSome = true
        ↔ (100 < t - s.lastSendTime
            ∧ (1 : ℚ) / 10000 < distSq pos s.lastSentPosition)) := by
  have h100 : 1000 / MULTIPLAYER_SETTINGS.positionUpdateRate = (100 : ℚ) := by
    norm_num [MULTIPLAYER_SETTINGS]
  have hsq : ((1 : ℚ) / 100) ^ 2 = 1 / 10000 := by norm_num
  unfold sendPosition controlsPositionStep
  rw [h100, hsq]
  refine ⟨?_, ?_, ?_, ?_⟩
  · split_ifs with h
    · constructor
      · intro habs
        exact habs.elim
      · intro hge
        exact absurd hge (not_le.mpr (by linarith))
    · exact iff_of_true rfl (by linarith [not_lt.mp h])
  · split_ifs with h
    · exact iff_of_true rfl h
    · constructor
      · intro habs
        exact habs.elim
      · intro hlt
        exact absurd hlt h
  · split_ifs with h
    · rfl
    · rfl
  · split_ifs with h1 h2
    · exact iff_of_true rfl ⟨h1, h2⟩
    · exact iff_of_false (by simp) fun hc => h2 hc.2
    · exact iff_of_false (by simp) fun hc => h1 hc.1
